import Mathlib

/-!
Verification of the bridge loop of the visual-cortex connector.

The embedding follows the two source modules the claims are about:

* `src/App.tsx` — the timer-driven bridge loop (`performReasoningStep`,
  `toggleVisualSystem`, the `useConversation` callbacks).  The browser
  event loop is single threaded, so the program is modelled as a state
  machine: `AppState` holds the React state and refs, `Event` is one
  event-loop turn (a timer tick, the resumption of an awaited analyzer
  call, a click on the toggle button, a voice-session status callback),
  and `step` executes one turn exactly as the source does.
* `src/services/geminiService.ts` — the vision analyzer.  Request
  construction is the pure function `analyzeRequest`; the error mapping
  of its catch block is `classifyFailure`.
-/

namespace VisualCortex

/-- Log entry categories, from `LogEntry.type` in `types.ts`. -/
inductive LogType
  | info
  | success
  | error
  | visual
  | bridge
deriving DecidableEq, Repr

/-- A log record.  The source also stores a random id and a timestamp;
neither is ever read back, so they are omitted. -/
structure LogEntry where
  type : LogType
  message : String
deriving DecidableEq, Repr

/-- The `ProcessingState` enum from `types.ts`. -/
inductive ProcessingState
  | IDLE
  | CAPTURING
  | ANALYZING
  | ERROR
deriving DecidableEq, Repr

/-- Status of the `useConversation` voice session. -/
inductive ConvStatus
  | disconnected
  | connecting
  | connected
deriving DecidableEq, Repr

/-- Does `pat` occur at the head of `hay`? -/
def charsStart : List Char → List Char → Bool
  | _, [] => true
  | [], _ :: _ => false
  | a :: as, b :: bs => a == b && charsStart as bs

/-- Does `pat` occur anywhere in `hay`?  (JS `String.prototype.includes`.) -/
def charsContain (hay pat : List Char) : Bool :=
  match hay with
  | [] => pat.isEmpty
  | _ :: t => charsStart hay pat || charsContain t pat

/-- JS `s.includes(pat)`. -/
def strIncludes (s pat : String) : Bool :=
  charsContain s.data pat.data

/-- Drop leading whitespace characters. -/
def dropWhiteLeft : List Char → List Char
  | [] => []
  | c :: t => if c.isWhitespace then dropWhiteLeft t else c :: t

/-- JS `s.trim()`: strip whitespace from both ends (the strings involved
are ASCII, where JS and this definition agree). -/
def strTrim (s : String) : String :=
  String.mk ((dropWhiteLeft ((dropWhiteLeft s.data).reverse)).reverse)

/-- The result test of `App.tsx` line 73:
`result.includes("NO_CHANGE") || result.trim().length === 0`. -/
def sentinelOrEmpty (result : String) : Bool :=
  strIncludes result "NO_CHANGE" || (strTrim result).length == 0

/-- One pending `analyzeFrame` call: the arguments it was invoked with
(at `App.tsx` lines 64-69 these are the fresh snapshot,
`lastSnapshotRef.current` and `lastTextDescriptionRef.current`). -/
structure InflightCall where
  snapshot : String
  prevSnapshot : Option String
  lastDesc : Option String
deriving DecidableEq, Repr

/-- The mutable state of `App.tsx`: React state, the two refs, plus two
observation traces (`inflight` records analyzer calls that have started
but whose handler has not finished; `sentUpdates` records every
`conversation.sendContextualUpdate` invocation). -/
structure AppState where
  isActive : Bool
  processingState : ProcessingState
  lastSnapshot : Option String
  lastTextDescription : Option String
  logs : List LogEntry
  convStatus : ConvStatus
  inflight : List InflightCall
  sentUpdates : List String
deriving DecidableEq, Repr

/-- The `addLog` helper of `App.tsx` (argument order as in the source). -/
def addLog (s : AppState) (message : String) (type : LogType) : AppState :=
  { s with logs := s.logs ++ [⟨type, message⟩] }

/-- Outcome of an awaited `analyzeFrame` promise: it resolved with a
string, or it rejected (only possible before its try block, e.g. in the
client constructor). -/
inductive CallOutcome
  | ok (result : String)
  | thrown (msg : String)
deriving DecidableEq, Repr

/-- One event-loop turn. -/
inductive Event
  /-- The 4000 ms interval (or the immediate activation call) invokes
  `performReasoningStep`; `capture` is what `getSnapshot()` returns. -/
  | tick (capture : Option String)
  /-- The continuation of `performReasoningStep` after
  `await analyzeFrame(...)` resumes for in-flight call `i`; `pushOk`
  says whether `sendContextualUpdate`, if reached, succeeds. -/
  | complete (i : Nat) (outcome : CallOutcome) (pushOk : Bool)
  /-- A click on the start/stop button (`toggleVisualSystem`). -/
  | toggle
  /-- The voice session fires `onConnect`. -/
  | connectEv
  /-- The voice session fires `onDisconnect`. -/
  | disconnectEv
deriving DecidableEq, Repr

/-- Execute one event-loop turn, exactly following the source.

`tick`: `performReasoningStep` up to the `await` — the two processing
guards, the capture, and the transition to `ANALYZING`; the interval
only exists while `isActive`, so a tick with `isActive = false` does
not occur (modelled as a no-op).

`complete`: the rest of `performReasoningStep` — update
`lastSnapshotRef`, the sentinel test, logging, the gated bridge push,
the catch for a rejected promise, and the `finally` reset to `IDLE`.

`toggle` / `connectEv` / `disconnectEv`: `toggleVisualSystem` and the
`useConversation` callbacks. -/
def step (s : AppState) (e : Event) : AppState :=
  match e with
  | .tick capture =>
    if s.isActive = false then s
    else if s.processingState ≠ ProcessingState.IDLE ∧
            s.processingState ≠ ProcessingState.ANALYZING then s
    else if s.processingState = ProcessingState.ANALYZING then s
    else
      match capture with
      | none => s
      | some snapshot =>
        { s with
            processingState := ProcessingState.ANALYZING,
            inflight := s.inflight ++
              [⟨snapshot, s.lastSnapshot, s.lastTextDescription⟩] }
  | .complete i outcome pushOk =>
    match s.inflight.get? i with
    | none => s
    | some c =>
      let s1 := { s with inflight := s.inflight.eraseIdx i }
      let s2 :=
        match outcome with
        | .ok result =>
          let sA := { s1 with lastSnapshot := some c.snapshot }
          if sentinelOrEmpty result then sA
          else
            let sB := { sA with lastTextDescription := some result }
            let sC := addLog sB result LogType.visual
            if sC.convStatus = ConvStatus.connected then
              let sD := { sC with sentUpdates := sC.sentUpdates ++ [result] }
              if pushOk then addLog sD "Context synced to Agent." LogType.bridge
              else addLog sD "Bridge Sync Failed." LogType.error
            else sC
        | .thrown msg =>
          addLog s1 ("Observer Malfunction: " ++ msg) LogType.error
      { s2 with processingState := ProcessingState.IDLE }
  | .toggle =>
    if s.isActive then
      addLog
        { s with
            isActive := false,
            processingState := ProcessingState.IDLE,
            lastSnapshot := none,
            lastTextDescription := none }
        "Visual Cortex Deactivated." LogType.info
    else
      addLog { s with isActive := true } "Initializing Visual Cortex..." LogType.info
  | .connectEv =>
    addLog { s with convStatus := ConvStatus.connected }
      "Voice Link Established." LogType.success
  | .disconnectEv =>
    addLog { s with convStatus := ConvStatus.disconnected }
      "Voice Link Terminated." LogType.info

/-- Run a sequence of event-loop turns. -/
def run (s : AppState) (es : List Event) : AppState :=
  es.foldl step s

/-- Initial state of the page: loop off, nothing captured, no logs,
voice session disconnected, nothing in flight. -/
def init : AppState :=
  ⟨false, ProcessingState.IDLE, none, none, [], ConvStatus.disconnected, [], []⟩

/-- The entries of a given category, in order. -/
def logsOfType (s : AppState) (t : LogType) : List LogEntry :=
  s.logs.filter (fun l => l.type == t)

/-! ## The vision analyzer (`src/services/geminiService.ts`) -/

/-- The `SYSTEM_INSTRUCTION` template literal, before the `.trim()`. -/
def SYSTEM_INSTRUCTION_RAW : String :=
  "\nYou are the visual cortex for a digital entity.\nINPUT: \n1. Two images (Previous Frame, Current Frame).\n2. The PREVIOUS visual description you generated (Context).\n\nGOAL: Provide a strictly differential, conversational update.\n\nSTRICT PROTOCOL:\n1. READ the \"Previous Description\" (if available) to know what context is already established.\n2. COMPARE Current Frame vs Previous Frame.\n3. IF NOTHING SIGNIFICANT CHANGED: Output \x27NO_CHANGE\x27.\n4. IF CHANGE DETECTED:\n   - Use PRONOUNS (he/she/it) referring to the subject established in the previous description.\n   - DO NOT re-describe static attributes (clothing colors, hair, background, furniture) unless they have physically changed.\n   - Focus PURELY on the delta: new actions, expression shifts, or object interactions.\n   - Example 1: Prev=\"Man in red shirt sitting.\" -> Current=\"He looks confused and points left.\" (NOT \"The man in the red shirt is now pointing\")\n   - Example 2: Prev=\"Empty room.\" -> Current=\"A cat walks into frame.\"\n\nOUTPUT FORMAT:\n- If effectively same state: NO_CHANGE\n- If change: <concise_conversational_update>\n"

/-- The `SYSTEM_INSTRUCTION` constant as the module exports it. -/
def SYSTEM_INSTRUCTION : String :=
  strTrim SYSTEM_INSTRUCTION_RAW

/-- JS `\w`: ASCII letter, digit or underscore. -/
def isWordChar (c : Char) : Bool :=
  c.isAlphanum || c == '_'

/-- Drop a run of word characters. -/
def dropWordChars : List Char → List Char
  | [] => []
  | c :: t => if isWordChar c then dropWordChars t else c :: t

/-- The strip of `s.replace(/^data:image\x5c/\x5cw+;base64,/, "")`: if the string opens
with a data-URL header, remove it, else return the string unchanged. -/
def stripDataUrl (s : String) : String :=
  let l := s.data
  let hdr := "data:image/".data
  if charsStart l hdr then
    match l.drop hdr.length with
    | [] => s
    | c :: t =>
      if isWordChar c then
        let afterWord := dropWordChars t
        let tail := ";base64,".data
        if charsStart afterWord tail then String.mk (afterWord.drop tail.length)
        else s
      else s
  else s

/-- A content part of the request: text, or inline image data. -/
inductive RequestPart
  | text (s : String)
  | inlineData (data : String) (mimeType : String)
deriving DecidableEq, Repr

/-- The `config` object passed to `generateContent`. -/
structure GenConfig where
  systemInstruction : String
  temperature : ℚ
  maxOutputTokens : Nat
  thinkingBudget : Nat
deriving DecidableEq

/-- The full `generateContent` request. -/
structure GenRequest where
  model : String
  parts : List RequestPart
  config : GenConfig
deriving DecidableEq

/-- The `parts` array built by `analyzeFrame` (lines 44-71): textual
context, optional previous frame, then the current frame. -/
def analyzeParts (base64Image : String) (previousBase64Image : Option String)
    (lastDescription : Option String) : List RequestPart :=
  let base64Data := stripDataUrl base64Image
  let contextParts :=
    match lastDescription with
    | some d =>
      [RequestPart.text ("PREVIOUS DESCRIPTION (Context established): \"" ++ d ++ "\"")]
    | none =>
      [RequestPart.text
        "PREVIOUS DESCRIPTION: None (First observation. Describe the scene briefly.)"]
  let prevParts :=
    match previousBase64Image with
    | some p =>
      [RequestPart.text "Previous Visual Frame:",
       RequestPart.inlineData (stripDataUrl p) "image/jpeg"]
    | none => []
  contextParts ++ prevParts ++
    [RequestPart.text "Current Visual Frame (Analyze change relative to context):",
     RequestPart.inlineData base64Data "image/jpeg"]

/-- The request `analyzeFrame` sends (lines 73-82): fixed model id and a
fixed config — the system instruction, temperature 0.1, a 60-token
output cap, and a zero thinking budget (deterministic decode). -/
def analyzeRequest (base64Image : String) (previousBase64Image : Option String)
    (lastDescription : Option String) : GenRequest :=
  { model := "gemini-3-flash-preview"
    parts := analyzeParts base64Image previousBase64Image lastDescription
    config :=
      { systemInstruction := SYSTEM_INSTRUCTION
        temperature := 1 / 10
        maxOutputTokens := 60
        thinkingBudget := 0 } }

/-- The arguments of one `analyzeFrame` call. -/
structure AnalyzeArgs where
  base64Image : String
  previousBase64Image : Option String
  lastDescription : Option String
deriving DecidableEq

/-- The module `geminiService.ts` declares no module-level mutable state, so a
sequence of calls is just each call executed independently; this is the
list of requests a call sequence produces, in order. -/
def runService (calls : List AnalyzeArgs) : List GenRequest :=
  calls.map fun a => analyzeRequest a.base64Image a.previousBase64Image a.lastDescription

/-- A failure thrown by the API client: an optional HTTP status and a
message (`""` models a falsy `error.message`). -/
structure ApiError where
  status : Option Nat
  message : String
deriving DecidableEq, Repr

/-- The catch block of `analyzeFrame` (lines 86-91): status 429 and 403
get fixed messages, everything else falls through to
`Error: ${error.message || "Unknown observer malfunction"}`. -/
def classifyFailure (e : ApiError) : String :=
  if e.status = some 429 then "Error: Rate limit exceeded."
  else if e.status = some 403 then "Error: API key invalid."
  else "Error: " ++ (if e.message = "" then "Unknown observer malfunction" else e.message)

/-- Outcome of the `generateContent` call inside the try block:
a response whose `text` may be undefined, or a thrown failure. -/
inductive ApiOutcome
  | ok (text : Option String)
  | fail (e : ApiError)
deriving DecidableEq, Repr

/-- The string `analyzeFrame` resolves with, given the API outcome:
`(response.text || "").trim()` on success, the classified message on
failure — the try block never rethrows. -/
def analyzeResult (outcome : ApiOutcome) : String :=
  match outcome with
  | .ok t => strTrim (t.getD "")
  | .fail e => classifyFailure e

/-- At most one analyzer call pending, and `ANALYZING` holds exactly
while one is. -/
def InflightInv (s : AppState) : Prop :=
  s.inflight.length ≤ 1 ∧
    (s.processingState = ProcessingState.ANALYZING ↔ s.inflight ≠ [])

/-! ## Shape lemmas for single steps -/

/-- A tick with no decoded frame changes nothing. -/
theorem step_tick_none (s : AppState) : step s (Event.tick none) = s := by
  simp only [step]
  split_ifs <;> rfl

/-- A tick while the loop is inactive changes nothing (the interval is
cleared, so such ticks do not fire). -/
theorem step_tick_inactive (s : AppState) (cap : Option String)
    (h : s.isActive = false) : step s (Event.tick cap) = s := by
  simp only [step]
  rw [if_pos h]

/-- A tick while the processing state is not `IDLE` changes nothing:
the two guards at the head of `performReasoningStep` drop it. -/
theorem step_tick_not_idle (s : AppState) (cap : Option String)
    (h : s.processingState ≠ ProcessingState.IDLE) :
    step s (Event.tick cap) = s := by
  simp only [step]
  split_ifs with h1 h2 h3
  · rfl
  · rfl
  · rfl
  · exfalso
    apply h
    rcases not_and_or.mp h2 with h4 | h4
    · exact not_not.mp h4
    · exact absurd (not_not.mp h4) h3

/-- An accepted tick: loop active, processing idle, capture succeeded.
The snapshot and the two previous-context refs are packaged into a new
in-flight analyzer call and the state moves to `ANALYZING`. -/
theorem step_tick_accept (s : AppState) (snap : String)
    (hA : s.isActive = true) (hP : s.processingState = ProcessingState.IDLE) :
    step s (Event.tick (some snap)) =
      { s with
          processingState := ProcessingState.ANALYZING,
          inflight := s.inflight ++ [⟨snap, s.lastSnapshot, s.lastTextDescription⟩] } := by
  simp only [step]
  rw [if_neg (by simp [hA]), if_neg (by simp [hP]), if_neg (by simp [hP])]

/-- A completion for an index with no pending call changes nothing. -/
theorem step_complete_missing (s : AppState) (i : Nat) (o : CallOutcome) (p : Bool)
    (hc : s.inflight.get? i = none) : step s (Event.complete i o p) = s := by
  simp only [step, hc]

/-- Completion with a non-sentinel, non-empty result: the snapshot ref
advances, the result becomes the previous observation and a visual log
entry, the push happens exactly when the session is connected, and the
bridge or error entry records the push outcome. -/
theorem step_complete_ok_new (s : AppState) (i : Nat) (c : InflightCall)
    (r : String) (p : Bool) (hc : s.inflight.get? i = some c)
    (hr : sentinelOrEmpty r = false) :
    step s (Event.complete i (CallOutcome.ok r) p) =
      { s with
          processingState := ProcessingState.IDLE,
          lastSnapshot := some c.snapshot,
          lastTextDescription := some r,
          logs := s.logs ++ [⟨LogType.visual, r⟩] ++
            (if s.convStatus = ConvStatus.connected then
              [if p then (⟨LogType.bridge, "Context synced to Agent."⟩ : LogEntry)
               else ⟨LogType.error, "Bridge Sync Failed."⟩]
             else []),
          inflight := s.inflight.eraseIdx i,
          sentUpdates := s.sentUpdates ++
            (if s.convStatus = ConvStatus.connected then [r] else []) } := by
  simp only [step, hc, addLog]
  simp only [hr, Bool.false_eq_true, if_false]
  split_ifs <;> simp [List.append_assoc]

/-- Completion with the sentinel or an effectively empty result: only
the snapshot ref advances; nothing is logged, nothing is pushed. -/
theorem step_complete_ok_sentinel (s : AppState) (i : Nat) (c : InflightCall)
    (r : String) (p : Bool) (hc : s.inflight.get? i = some c)
    (hr : sentinelOrEmpty r = true) :
    step s (Event.complete i (CallOutcome.ok r) p) =
      { s with
          processingState := ProcessingState.IDLE,
          lastSnapshot := some c.snapshot,
          inflight := s.inflight.eraseIdx i } := by
  simp only [step, hc, addLog]
  simp [hr]

/-- Completion of a rejected analyzer promise: the catch block logs an
error; the refs are untouched. -/
theorem step_complete_thrown (s : AppState) (i : Nat) (c : InflightCall)
    (m : String) (p : Bool) (hc : s.inflight.get? i = some c) :
    step s (Event.complete i (CallOutcome.thrown m) p) =
      { s with
          processingState := ProcessingState.IDLE,
          logs := s.logs ++ [⟨LogType.error, "Observer Malfunction: " ++ m⟩],
          inflight := s.inflight.eraseIdx i } := by
  simp only [step, hc, addLog]

/-- Stopping the loop: the active flag drops, the processing state is
forced to `IDLE`, both context refs are cleared — but pending calls are
not aborted. -/
theorem step_toggle_stop (s : AppState) (h : s.isActive = true) :
    step s Event.toggle =
      { s with
          isActive := false,
          processingState := ProcessingState.IDLE,
          lastSnapshot := none,
          lastTextDescription := none,
          logs := s.logs ++ [⟨LogType.info, "Visual Cortex Deactivated."⟩] } := by
  simp only [step, addLog]
  rw [if_pos h]

/-- Starting the loop: only the active flag rises (and a log entry is
appended); the refs and processing state are whatever they were. -/
theorem step_toggle_start (s : AppState) (h : s.isActive = false) :
    step s Event.toggle =
      { s with
          isActive := true,
          logs := s.logs ++ [⟨LogType.info, "Initializing Visual Cortex..."⟩] } := by
  simp only [step, addLog]
  rw [if_neg (by simp [h])]

/-- The `onConnect` callback: the session reports connected. -/
theorem step_connect (s : AppState) :
    step s Event.connectEv =
      { s with
          convStatus := ConvStatus.connected,
          logs := s.logs ++ [⟨LogType.success, "Voice Link Established."⟩] } := by
  simp only [step, addLog]

/-- The `onDisconnect` callback: the session reports disconnected. -/
theorem step_disconnect (s : AppState) :
    step s Event.disconnectEv =
      { s with
          convStatus := ConvStatus.disconnected,
          logs := s.logs ++ [⟨LogType.info, "Voice Link Terminated."⟩] } := by
  simp only [step, addLog]

theorem run_nil (s : AppState) : run s [] = s := rfl

theorem run_cons (s : AppState) (e : Event) (t : List Event) :
    run s (e :: t) = run (step s e) t := rfl

/-! ## The at-most-one-in-flight invariant -/

/-- A list of length at most one that holds an element at index `i` is
that singleton, and `i` is zero. -/
theorem inflight_singleton {l : List InflightCall} {i : Nat} {c : InflightCall}
    (hlen : l.length ≤ 1) (hc : l.get? i = some c) : l = [c] ∧ i = 0 := by
  cases l with
  | nil => simp at hc
  | cons a t =>
    cases t with
    | nil =>
      cases i with
      | zero =>
        simp at hc
        simp [hc]
      | succ n => simp at hc
    | cons b t2 => simp at hlen

/-- The invariant `InflightInv` is preserved by every event other than
the toggle. -/
theorem inflightInv_step (s : AppState) (e : Event) (hInv : InflightInv s)
    (he : e ≠ Event.toggle) : InflightInv (step s e) := by
  obtain ⟨hlen, hiff⟩ := hInv
  cases e with
  | tick cap =>
    by_cases hA : s.isActive = false
    · rw [step_tick_inactive s cap hA]; exact ⟨hlen, hiff⟩
    · by_cases hP : s.processingState = ProcessingState.IDLE
      · cases cap with
        | none => rw [step_tick_none]; exact ⟨hlen, hiff⟩
        | some snap =>
          have hA2 : s.isActive = true := by
            cases hb : s.isActive
            · exact absurd hb hA
            · rfl
          rw [step_tick_accept s snap hA2 hP]
          have hemp : s.inflight = [] := by
            by_contra hne
            have h2 := hiff.mpr hne
            rw [hP] at h2
            exact absurd h2 (by decide)
          simp [InflightInv, hemp]
      · rw [step_tick_not_idle s cap hP]; exact ⟨hlen, hiff⟩
  | complete i o p =>
    cases hc : s.inflight.get? i with
    | none => rw [step_complete_missing s i o p hc]; exact ⟨hlen, hiff⟩
    | some c =>
      obtain ⟨hl, hi⟩ := inflight_singleton hlen hc
      have her : s.inflight.eraseIdx i = [] := by rw [hl, hi]; rfl
      cases o with
      | thrown m =>
        rw [step_complete_thrown s i c m p hc]
        simp [InflightInv, her]
      | ok r =>
        by_cases hs : sentinelOrEmpty r = true
        · rw [step_complete_ok_sentinel s i c r p hc hs]
          simp [InflightInv, her]
        · have hs2 : sentinelOrEmpty r = false := by
            cases hb : sentinelOrEmpty r
            · rfl
            · exact absurd hb hs
          rw [step_complete_ok_new s i c r p hc hs2]
          simp [InflightInv, her]
  | toggle => exact absurd rfl he
  | connectEv => rw [step_connect]; exact ⟨hlen, hiff⟩
  | disconnectEv => rw [step_disconnect]; exact ⟨hlen, hiff⟩

/-- The invariant `InflightInv` holds along any toggle-free run. -/
theorem inflightInv_run (s : AppState) (es : List Event) (hInv : InflightInv s)
    (hes : ∀ e ∈ es, e ≠ Event.toggle) : InflightInv (run s es) := by
  induction es generalizing s with
  | nil => exact hInv
  | cons e t ih =>
    rw [run_cons]
    exact ih (step s e)
      (inflightInv_step s e hInv (hes e (List.mem_cons_self e t)))
      (fun e2 he2 => hes e2 (List.mem_cons_of_mem e he2))

/-! ## Claims -/

/-- Claim C1, counterexample to the claim as stated.  Stopping the loop
(`toggleVisualSystem`) resets the processing state to `IDLE` while the
analyzer call started on the earlier tick is still pending — so the
state is `IDLE` before the in-flight handling completes — and after a
restart the next tick sees `IDLE`, captures, and starts a second
analyzer call: two calls are then in flight at once. -/
theorem C1_counterexample :
    ((run init [Event.toggle, Event.tick (some "frameA"), Event.toggle]).processingState
        = ProcessingState.IDLE ∧
     (run init [Event.toggle, Event.tick (some "frameA"), Event.toggle]).inflight.length
        = 1) ∧
    (run init [Event.toggle, Event.tick (some "frameA"), Event.toggle, Event.toggle,
        Event.tick (some "frameB")]).inflight.length = 2 := by
  decide

/-- Claim C1 (amended): along any stretch of execution in which the
loop is not stopped or restarted (no toggle event), at most one
analyzer call is in flight, the processing state is `IDLE` only when no
call is in flight, and a tick that fires while the state is `ANALYZING`
changes nothing at all (no capture, no call — dropped, not queued). -/
theorem C1_at_most_one_call_in_flight (s : AppState) (es : List Event)
    (hInv : InflightInv s) (hes : ∀ e ∈ es, e ≠ Event.toggle) :
    (run s es).inflight.length ≤ 1 ∧
    ((run s es).processingState = ProcessingState.IDLE → (run s es).inflight = []) ∧
    (∀ (s2 : AppState) (cap : Option String),
      s2.processingState = ProcessingState.ANALYZING → step s2 (Event.tick cap) = s2) := by
  obtain ⟨h1, h2⟩ := inflightInv_run s es hInv hes
  refine ⟨h1, ?_, ?_⟩
  · intro hI
    by_contra hne
    have h3 := h2.mpr hne
    rw [hI] at h3
    exact absurd h3 (by decide)
  · intro s2 cap hA
    exact step_tick_not_idle s2 cap (by rw [hA]; decide)

/-- Witness for C1 at the initial state and a concrete toggle-free
event list. -/
theorem C1_witness :
    InflightInv init ∧
    ((run init [Event.connectEv, Event.tick (some "imgA")]).inflight.length ≤ 1 ∧
     ((run init [Event.connectEv, Event.tick (some "imgA")]).processingState
          = ProcessingState.IDLE →
        (run init [Event.connectEv, Event.tick (some "imgA")]).inflight = []) ∧
     (∀ (s2 : AppState) (cap : Option String),
        s2.processingState = ProcessingState.ANALYZING → step s2 (Event.tick cap) = s2)) :=
  ⟨by simp [InflightInv, init],
   C1_at_most_one_call_in_flight init [Event.connectEv, Event.tick (some "imgA")]
     (by simp [InflightInv, init])
     (by intro e he; simp only [List.mem_cons, List.mem_singleton] at he
         rcases he with h | h | h
         · subst h; decide
         · subst h; decide
         · exact absurd h (by simp))⟩

/-- Claim C2: a step extends the list of `sendContextualUpdate`
invocations only if the session status was `connected` when the event
was handled; over a whole run, every push therefore happens from a
connected state. -/
theorem C2_push_only_when_connected (s : AppState) (e : Event)
    (h : (step s e).sentUpdates ≠ s.sentUpdates) :
    s.convStatus = ConvStatus.connected := by
  cases e with
  | tick cap =>
    exfalso
    apply h
    by_cases hA : s.isActive = false
    · rw [step_tick_inactive s cap hA]
    · by_cases hP : s.processingState = ProcessingState.IDLE
      · cases cap with
        | none => rw [step_tick_none]
        | some snap =>
          have hA2 : s.isActive = true := by
            cases hb : s.isActive
            · exact absurd hb hA
            · rfl
          rw [step_tick_accept s snap hA2 hP]
      · rw [step_tick_not_idle s cap hP]
  | complete i o p =>
    cases hc : s.inflight.get? i with
    | none => rw [step_complete_missing s i o p hc] at h; exact absurd rfl h
    | some c =>
      cases o with
      | thrown m => rw [step_complete_thrown s i c m p hc] at h; exact absurd rfl h
      | ok r =>
        by_cases hs : sentinelOrEmpty r = true
        · rw [step_complete_ok_sentinel s i c r p hc hs] at h; exact absurd rfl h
        · have hs2 : sentinelOrEmpty r = false := by
            cases hb : sentinelOrEmpty r
            · rfl
            · exact absurd hb hs
          rw [step_complete_ok_new s i c r p hc hs2] at h
          by_cases hcon : s.convStatus = ConvStatus.connected
          · exact hcon
          · exfalso; apply h; simp [hcon]
  | toggle =>
    exfalso
    apply h
    by_cases hA : s.isActive = true
    · rw [step_toggle_stop s hA]
    · have hA2 : s.isActive = false := by
        cases hb : s.isActive
        · rfl
        · exact absurd hb hA
      rw [step_toggle_start s hA2]
  | connectEv => exfalso; apply h; rw [step_connect]
  | disconnectEv => exfalso; apply h; rw [step_disconnect]

/-- Witness for C2: a completion of a new observation in a connected
state does push, and the theorem reports the connected status. -/
theorem C2_witness :
    (step (⟨true, ProcessingState.ANALYZING, none, none, [], ConvStatus.connected,
          [⟨"imgA", none, none⟩], []⟩ : AppState)
        (Event.complete 0 (CallOutcome.ok "A cat walks in.") true)).sentUpdates ≠
      (⟨true, ProcessingState.ANALYZING, none, none, [], ConvStatus.connected,
          [⟨"imgA", none, none⟩], []⟩ : AppState).sentUpdates ∧
    (⟨true, ProcessingState.ANALYZING, none, none, [], ConvStatus.connected,
        [⟨"imgA", none, none⟩], []⟩ : AppState).convStatus = ConvStatus.connected :=
  ⟨by decide,
   C2_push_only_when_connected
     (⟨true, ProcessingState.ANALYZING, none, none, [], ConvStatus.connected,
        [⟨"imgA", none, none⟩], []⟩ : AppState)
     (Event.complete 0 (CallOutcome.ok "A cat walks in.") true) (by decide)⟩

/-- Claim C7: a tick on which capture returns `absent` is a silent
no-op — the state is literally unchanged, so no analyzer call is
recorded, no log entry of any category is appended, the processing
state stays what it was, and both previous-context refs are
untouched. -/
theorem C7_capture_absent_is_noop (s : AppState) :
    step s (Event.tick none) = s :=
  step_tick_none s

/-- Claim C3, counterexample to the claim as stated.  With the session
connected, a tick whose analyzer call returns the fresh description
"A person enters." but whose contextual push fails produces the visual
entry and an error entry — no bridge entry — although the session was
connected: the "appended iff connected" direction fails.  -/
theorem C3_counterexample :
    (⟨true, ProcessingState.ANALYZING, none, none, [], ConvStatus.connected,
        [⟨"imgA", none, none⟩], []⟩ : AppState).convStatus = ConvStatus.connected ∧
    sentinelOrEmpty "A person enters." = false ∧
    (step (⟨true, ProcessingState.ANALYZING, none, none, [], ConvStatus.connected,
        [⟨"imgA", none, none⟩], []⟩ : AppState)
      (Event.complete 0 (CallOutcome.ok "A person enters.") false)).logs =
      [⟨LogType.visual, "A person enters."⟩, ⟨LogType.error, "Bridge Sync Failed."⟩] ∧
    logsOfType (step (⟨true, ProcessingState.ANALYZING, none, none, [],
        ConvStatus.connected, [⟨"imgA", none, none⟩], []⟩ : AppState)
      (Event.complete 0 (CallOutcome.ok "A person enters.") false)) LogType.bridge
      = [] := by
  decide

/-- Claim C3 (amended): for every accepted tick whose analyzer call
returns a non-sentinel, non-empty string, exactly one visual entry is
appended, carrying that string; a bridge entry is appended iff the
session was connected AND the push succeeded; if the session was
connected and the push failed, an error entry is appended instead. -/
theorem C3_visual_and_bridge_logging (s : AppState) (i : Nat) (c : InflightCall)
    (r : String) (p : Bool) (hc : s.inflight.get? i = some c)
    (hr : sentinelOrEmpty r = false) :
    logsOfType (step s (Event.complete i (CallOutcome.ok r) p)) LogType.visual
        = logsOfType s LogType.visual ++ [⟨LogType.visual, r⟩] ∧
    logsOfType (step s (Event.complete i (CallOutcome.ok r) p)) LogType.bridge
        = logsOfType s LogType.bridge ++
            (if s.convStatus = ConvStatus.connected ∧ p = true then
              [⟨LogType.bridge, "Context synced to Agent."⟩] else []) ∧
    logsOfType (step s (Event.complete i (CallOutcome.ok r) p)) LogType.error
        = logsOfType s LogType.error ++
            (if s.convStatus = ConvStatus.connected ∧ p = false then
              [⟨LogType.error, "Bridge Sync Failed."⟩] else []) := by
  rw [step_complete_ok_new s i c r p hc hr]
  by_cases hcon : s.convStatus = ConvStatus.connected
  · cases p <;>
      simp [logsOfType, List.filter_append, hcon]
  · simp [logsOfType, List.filter_append, hcon]

/-- Witness for C3 at a connected state with a successful push. -/
theorem C3_witness :
    ((⟨true, ProcessingState.ANALYZING, none, none, [], ConvStatus.connected,
        [⟨"imgA", none, none⟩], []⟩ : AppState).inflight.get? 0
        = some ⟨"imgA", none, none⟩ ∧
     sentinelOrEmpty "A person enters." = false) ∧
    (logsOfType (step (⟨true, ProcessingState.ANALYZING, none, none, [],
          ConvStatus.connected, [⟨"imgA", none, none⟩], []⟩ : AppState)
        (Event.complete 0 (CallOutcome.ok "A person enters.") true)) LogType.visual
        = logsOfType (⟨true, ProcessingState.ANALYZING, none, none, [],
            ConvStatus.connected, [⟨"imgA", none, none⟩], []⟩ : AppState) LogType.visual
          ++ [⟨LogType.visual, "A person enters."⟩] ∧
     logsOfType (step (⟨true, ProcessingState.ANALYZING, none, none, [],
          ConvStatus.connected, [⟨"imgA", none, none⟩], []⟩ : AppState)
        (Event.complete 0 (CallOutcome.ok "A person enters.") true)) LogType.bridge
        = logsOfType (⟨true, ProcessingState.ANALYZING, none, none, [],
            ConvStatus.connected, [⟨"imgA", none, none⟩], []⟩ : AppState) LogType.bridge
          ++ (if (⟨true, ProcessingState.ANALYZING, none, none, [],
                ConvStatus.connected, [⟨"imgA", none, none⟩], []⟩ : AppState).convStatus
                  = ConvStatus.connected ∧ true = true then
              [⟨LogType.bridge, "Context synced to Agent."⟩] else []) ∧
     logsOfType (step (⟨true, ProcessingState.ANALYZING, none, none, [],
          ConvStatus.connected, [⟨"imgA", none, none⟩], []⟩ : AppState)
        (Event.complete 0 (CallOutcome.ok "A person enters.") true)) LogType.error
        = logsOfType (⟨true, ProcessingState.ANALYZING, none, none, [],
            ConvStatus.connected, [⟨"imgA", none, none⟩], []⟩ : AppState) LogType.error
          ++ (if (⟨true, ProcessingState.ANALYZING, none, none, [],
                ConvStatus.connected, [⟨"imgA", none, none⟩], []⟩ : AppState).convStatus
                  = ConvStatus.connected ∧ true = false then
              [⟨LogType.error, "Bridge Sync Failed."⟩] else [])) :=
  ⟨⟨by decide, by decide⟩,
   C3_visual_and_bridge_logging
     (⟨true, ProcessingState.ANALYZING, none, none, [], ConvStatus.connected,
        [⟨"imgA", none, none⟩], []⟩ : AppState)
     0 ⟨"imgA", none, none⟩ "A person enters." true (by decide) (by decide)⟩

/-- Claim C4: on an accepted tick whose analyzer result is the sentinel
or effectively empty, nothing is logged at all (in particular no visual
and no bridge entry), nothing is pushed, and the previous-observation
ref is unchanged. -/
theorem C4_sentinel_is_silent (s : AppState) (i : Nat) (c : InflightCall)
    (r : String) (p : Bool) (hc : s.inflight.get? i = some c)
    (hr : sentinelOrEmpty r = true) :
    (step s (Event.complete i (CallOutcome.ok r) p)).logs = s.logs ∧
    (step s (Event.complete i (CallOutcome.ok r) p)).sentUpdates = s.sentUpdates ∧
    (step s (Event.complete i (CallOutcome.ok r) p)).lastTextDescription
        = s.lastTextDescription := by
  rw [step_complete_ok_sentinel s i c r p hc hr]
  exact ⟨rfl, rfl, rfl⟩

/-- Witness for C4 at a connected state and the literal sentinel. -/
theorem C4_witness :
    ((⟨true, ProcessingState.ANALYZING, none, some "old", [], ConvStatus.connected,
        [⟨"imgB", some "imgA", some "old"⟩], []⟩ : AppState).inflight.get? 0
        = some ⟨"imgB", some "imgA", some "old"⟩ ∧
     sentinelOrEmpty "NO_CHANGE" = true) ∧
    ((step (⟨true, ProcessingState.ANALYZING, none, some "old", [], ConvStatus.connected,
        [⟨"imgB", some "imgA", some "old"⟩], []⟩ : AppState)
      (Event.complete 0 (CallOutcome.ok "NO_CHANGE") true)).logs
        = (⟨true, ProcessingState.ANALYZING, none, some "old", [], ConvStatus.connected,
            [⟨"imgB", some "imgA", some "old"⟩], []⟩ : AppState).logs ∧
     (step (⟨true, ProcessingState.ANALYZING, none, some "old", [], ConvStatus.connected,
        [⟨"imgB", some "imgA", some "old"⟩], []⟩ : AppState)
      (Event.complete 0 (CallOutcome.ok "NO_CHANGE") true)).sentUpdates
        = (⟨true, ProcessingState.ANALYZING, none, some "old", [], ConvStatus.connected,
            [⟨"imgB", some "imgA", some "old"⟩], []⟩ : AppState).sentUpdates ∧
     (step (⟨true, ProcessingState.ANALYZING, none, some "old", [], ConvStatus.connected,
        [⟨"imgB", some "imgA", some "old"⟩], []⟩ : AppState)
      (Event.complete 0 (CallOutcome.ok "NO_CHANGE") true)).lastTextDescription
        = (⟨true, ProcessingState.ANALYZING, none, some "old", [], ConvStatus.connected,
            [⟨"imgB", some "imgA", some "old"⟩], []⟩ : AppState).lastTextDescription) :=
  ⟨⟨by decide, by decide⟩,
   C4_sentinel_is_silent
     (⟨true, ProcessingState.ANALYZING, none, some "old", [], ConvStatus.connected,
        [⟨"imgB", some "imgA", some "old"⟩], []⟩ : AppState)
     0 ⟨"imgB", some "imgA", some "old"⟩ "NO_CHANGE" true (by decide) (by decide)⟩

/-- Claim C5: once the handling of an accepted tick completes, the
previous-snapshot ref equals the snapshot captured on that tick — for
sentinel results, new descriptions, and error-string results alike
(every resolved analyzer value). -/
theorem C5_snapshot_always_advances (s : AppState) (i : Nat) (c : InflightCall)
    (r : String) (p : Bool) (hc : s.inflight.get? i = some c) :
    (step s (Event.complete i (CallOutcome.ok r) p)).lastSnapshot = some c.snapshot := by
  by_cases hs : sentinelOrEmpty r = true
  · rw [step_complete_ok_sentinel s i c r p hc hs]
  · have hs2 : sentinelOrEmpty r = false := by
      cases hb : sentinelOrEmpty r
      · rfl
      · exact absurd hb hs
    rw [step_complete_ok_new s i c r p hc hs2]

/-- Witness for C5: the snapshot ref advances even on a sentinel result. -/
theorem C5_witness :
    (⟨true, ProcessingState.ANALYZING, some "imgA", none, [], ConvStatus.disconnected,
        [⟨"imgB", some "imgA", none⟩], []⟩ : AppState).inflight.get? 0
        = some ⟨"imgB", some "imgA", none⟩ ∧
    (step (⟨true, ProcessingState.ANALYZING, some "imgA", none, [],
        ConvStatus.disconnected, [⟨"imgB", some "imgA", none⟩], []⟩ : AppState)
      (Event.complete 0 (CallOutcome.ok "NO_CHANGE") true)).lastSnapshot
        = some (⟨"imgB", some "imgA", none⟩ : InflightCall).snapshot :=
  ⟨by decide,
   C5_snapshot_always_advances
     (⟨true, ProcessingState.ANALYZING, some "imgA", none, [],
        ConvStatus.disconnected, [⟨"imgB", some "imgA", none⟩], []⟩ : AppState)
     0 ⟨"imgB", some "imgA", none⟩ "NO_CHANGE" true (by decide)⟩

/-- After a stop with nothing in flight, no tick-free stretch of events
can repopulate the context refs or start a call: completions find no
pending call, toggles either clear the refs again or only raise the
active flag, and session callbacks touch neither. -/
theorem quiescent_run (s : AppState) (es : List Event)
    (h1 : s.lastSnapshot = none) (h2 : s.lastTextDescription = none)
    (h3 : s.inflight = [])
    (hes : ∀ e ∈ es, ∀ cap, e ≠ Event.tick cap) :
    (run s es).lastSnapshot = none ∧ (run s es).lastTextDescription = none ∧
      (run s es).inflight = [] := by
  induction es generalizing s with
  | nil => exact ⟨h1, h2, h3⟩
  | cons e t ih =>
    rw [run_cons]
    have hstep : (step s e).lastSnapshot = none ∧
        (step s e).lastTextDescription = none ∧ (step s e).inflight = [] := by
      cases e with
      | tick cap => exact absurd rfl (hes _ (List.mem_cons_self _ _) cap)
      | complete i o p =>
        have hc : s.inflight.get? i = none := by rw [h3]; simp
        rw [step_complete_missing s i o p hc]
        exact ⟨h1, h2, h3⟩
      | toggle =>
        by_cases hA : s.isActive = true
        · rw [step_toggle_stop s hA]
          exact ⟨rfl, rfl, h3⟩
        · have hA2 : s.isActive = false := by
            cases hb : s.isActive
            · rfl
            · exact absurd hb hA
          rw [step_toggle_start s hA2]
          exact ⟨h1, h2, h3⟩
      | connectEv => rw [step_connect]; exact ⟨h1, h2, h3⟩
      | disconnectEv => rw [step_disconnect]; exact ⟨h1, h2, h3⟩
    exact ih (step s e) hstep.1 hstep.2.1 hstep.2.2
      (fun e2 he2 cap => hes e2 (List.mem_cons_of_mem e he2) cap)

/-- Claim C6, counterexample to the claim as stated.  Stop the loop
while an analyzer call is in flight; when that call completes, its
handler unconditionally writes the captured snapshot back into the
(just cleared) previous-snapshot ref and, the result being a fresh
description, the previous-observation ref as well.  The next
activation then hands the analyzer that stale context: its first call
carries previous snapshot "imgA" and previous observation
"A person enters.", not absent values. -/
theorem C6_counterexample :
    (run init [Event.toggle, Event.tick (some "imgA"), Event.toggle,
        Event.complete 0 (CallOutcome.ok "A person enters.") true,
        Event.toggle, Event.tick (some "imgB")]).inflight =
      [⟨"imgB", some "imgA", some "A person enters."⟩] := by
  decide

/-- Claim C6 (amended): stopping the loop does clear both context refs
and reset the processing state to `IDLE`; and provided no analyzer call
was in flight at the stop, the first analyzer call after it (across any
tick-free stretch, including the restart) receives absent previous
snapshot and absent previous observation. -/
theorem C6_stop_clears_context (s : AppState) (es : List Event) (snap : String)
    (c : InflightCall) (hA : s.isActive = true) (hq : s.inflight = [])
    (hes : ∀ e ∈ es, ∀ cap, e ≠ Event.tick cap) :
    ((step s Event.toggle).lastSnapshot = none ∧
     (step s Event.toggle).lastTextDescription = none ∧
     (step s Event.toggle).processingState = ProcessingState.IDLE) ∧
    (c ∈ (step (run (step s Event.toggle) es) (Event.tick (some snap))).inflight →
      c.snapshot = snap ∧ c.prevSnapshot = none ∧ c.lastDesc = none) := by
  have hstop := step_toggle_stop s hA
  refine ⟨by rw [hstop]; exact ⟨rfl, rfl, rfl⟩, ?_⟩
  intro hmem
  obtain ⟨ha, hb, hfl⟩ := quiescent_run (step s Event.toggle) es
    (by rw [hstop]) (by rw [hstop]) (by rw [hstop]; exact hq) hes
  by_cases hA2 : (run (step s Event.toggle) es).isActive = false
  · rw [step_tick_inactive _ _ hA2, hfl] at hmem
    simp at hmem
  · by_cases hP : (run (step s Event.toggle) es).processingState = ProcessingState.IDLE
    · have hA3 : (run (step s Event.toggle) es).isActive = true := by
        cases hb2 : (run (step s Event.toggle) es).isActive
        · exact absurd hb2 hA2
        · rfl
      rw [step_tick_accept _ snap hA3 hP] at hmem
      rw [hfl] at hmem
      simp at hmem
      rw [hmem, ha, hb]
      exact ⟨rfl, rfl, rfl⟩
    · rw [step_tick_not_idle _ _ hP, hfl] at hmem
      simp at hmem

/-- Witness for C6: stop from a quiescent active state, restart, and
the first accepted tick packages absent context. -/
theorem C6_witness :
    ((run init [Event.toggle]).isActive = true ∧
     (run init [Event.toggle]).inflight = []) ∧
    (((step (run init [Event.toggle]) Event.toggle).lastSnapshot = none ∧
      (step (run init [Event.toggle]) Event.toggle).lastTextDescription = none ∧
      (step (run init [Event.toggle]) Event.toggle).processingState
          = ProcessingState.IDLE) ∧
     ((⟨"imgB", none, none⟩ : InflightCall) ∈
        (step (run (step (run init [Event.toggle]) Event.toggle) [Event.toggle])
          (Event.tick (some "imgB"))).inflight →
      (⟨"imgB", none, none⟩ : InflightCall).snapshot = "imgB" ∧
      (⟨"imgB", none, none⟩ : InflightCall).prevSnapshot = none ∧
      (⟨"imgB", none, none⟩ : InflightCall).lastDesc = none)) :=
  ⟨⟨by decide, by decide⟩,
   C6_stop_clears_context (run init [Event.toggle]) [Event.toggle] "imgB"
     ⟨"imgB", none, none⟩ (by decide) (by decide)
     (by intro e he cap
         simp only [List.mem_singleton] at he
         subst he
         intro hcontra
         exact Event.noConfusion hcontra)⟩

/-- Every classified failure message is the `"Error: "` prefix followed
by some tail — a result value in the shape the catch block produces. -/
theorem classifyFailure_shape (e : ApiError) :
    ∃ rest, classifyFailure e = "Error: " ++ rest := by
  unfold classifyFailure
  by_cases h1 : e.status = some 429
  · rw [if_pos h1]; exact ⟨"Rate limit exceeded.", by decide⟩
  · rw [if_neg h1]
    by_cases h2 : e.status = some 403
    · rw [if_pos h2]; exact ⟨"API key invalid.", by decide⟩
    · rw [if_neg h2]; exact ⟨_, rfl⟩

/-- Claim C8, counterexample to the claim as stated.  The catch block
of `analyzeFrame` distinguishes only status 429 and status 403; a
network failure and a content-safety block (any failure without one of
those two statuses) both take the generic unclassified fallback that
merely echoes the message — there is no distinct network or
content-safety category in the code. -/
theorem C8_counterexample :
    classifyFailure ⟨none, "fetch failed: network down"⟩ =
        "Error: " ++ "fetch failed: network down" ∧
    classifyFailure ⟨some 400, "Request blocked by safety filters"⟩ =
        "Error: " ++ "Request blocked by safety filters" ∧
    classifyFailure ⟨some 429, "x"⟩ = "Error: Rate limit exceeded." ∧
    classifyFailure ⟨some 403, "x"⟩ = "Error: API key invalid." := by
  decide

/-- Claim C8 (amended): every analyzer failure is reported to the
caller as a result string prefixed `"Error: "` (not a rethrown fault);
the only distinct categories are rate limit (status 429) and
permission/auth (status 403); every other failure — network and
content-safety failures included — takes the single unclassified
fallback echoing the error message (or a fixed placeholder when the
message is empty). -/
theorem C8_failure_classification (e : ApiError) :
    (∃ rest, classifyFailure e = "Error: " ++ rest) ∧
    (e.status = some 429 → classifyFailure e = "Error: Rate limit exceeded.") ∧
    (e.status = some 403 → classifyFailure e = "Error: API key invalid.") ∧
    (e.status ≠ some 429 → e.status ≠ some 403 →
      classifyFailure e =
        "Error: " ++
          (if e.message = "" then "Unknown observer malfunction" else e.message)) := by
  refine ⟨classifyFailure_shape e, ?_, ?_, ?_⟩
  · intro h1
    unfold classifyFailure
    rw [if_pos h1]
  · intro h2
    have h1 : e.status ≠ some 429 := by rw [h2]; decide
    unfold classifyFailure
    rw [if_neg h1, if_pos h2]
  · intro h1 h2
    unfold classifyFailure
    rw [if_neg h1, if_neg h2]

/-- Witness for C8 at a rate-limit failure. -/
theorem C8_witness :
    (⟨some 429, "quota exhausted"⟩ : ApiError).status = some 429 ∧
    classifyFailure ⟨some 429, "quota exhausted"⟩ = "Error: Rate limit exceeded." :=
  ⟨rfl, (C8_failure_classification ⟨some 429, "quota exhausted"⟩).2.1 rfl⟩

/-- Claim C9: the service keeps no mutable module state, so the request
built for given arguments is the same at any position in any call
sequence, and its model id and full config (system instruction,
temperature, deterministic-decode thinking budget, output cap) are the
fixed constants of the source. -/
theorem C9_request_params_fixed (l : List AnalyzeArgs) (i j : Nat) (a : AnalyzeArgs)
    (hi : l.get? i = some a) (hj : l.get? j = some a) :
    (runService l).get? i = (runService l).get? j ∧
    ∀ b : AnalyzeArgs,
      (analyzeRequest b.base64Image b.previousBase64Image b.lastDescription).model
          = "gemini-3-flash-preview" ∧
      (analyzeRequest b.base64Image b.previousBase64Image b.lastDescription).config
          = ⟨SYSTEM_INSTRUCTION, 1 / 10, 60, 0⟩ := by
  constructor
  · have hmap : ∀ (n : Nat), (runService l).get? n =
        (l.get? n).map
          (fun b => analyzeRequest b.base64Image b.previousBase64Image b.lastDescription) := by
      intro n
      unfold runService
      simp
    rw [hmap i, hmap j, hi, hj]
  · intro b
    exact ⟨rfl, rfl⟩

/-- Witness for C9: two calls with identical arguments at different
positions of a concrete call sequence yield the same request. -/
theorem C9_witness :
    (([⟨"imgA", none, none⟩, ⟨"imgA", none, none⟩] : List AnalyzeArgs).get? 0
        = some ⟨"imgA", none, none⟩ ∧
     ([⟨"imgA", none, none⟩, ⟨"imgA", none, none⟩] : List AnalyzeArgs).get? 1
        = some ⟨"imgA", none, none⟩) ∧
    ((runService [⟨"imgA", none, none⟩, ⟨"imgA", none, none⟩]).get? 0
        = (runService [⟨"imgA", none, none⟩, ⟨"imgA", none, none⟩]).get? 1 ∧
     ∀ b : AnalyzeArgs,
       (analyzeRequest b.base64Image b.previousBase64Image b.lastDescription).model
           = "gemini-3-flash-preview" ∧
       (analyzeRequest b.base64Image b.previousBase64Image b.lastDescription).config
           = ⟨SYSTEM_INSTRUCTION, 1 / 10, 60, 0⟩) :=
  ⟨⟨by decide, by decide⟩,
   C9_request_params_fixed [⟨"imgA", none, none⟩, ⟨"imgA", none, none⟩] 0 1
     ⟨"imgA", none, none⟩ (by decide) (by decide)⟩

/-- Claim C10, counterexample to the claim as stated.  A failure whose
message contains the sentinel substring is returned as
`"Error: NO_CHANGE"`; that string trips the loop sentinel test, so the
loop records nothing, logs nothing and pushes nothing — the claimed
"such strings are non-sentinel" does not hold for every failure. -/
theorem C10_counterexample :
    classifyFailure ⟨none, "NO_CHANGE"⟩ = "Error: NO_CHANGE" ∧
    sentinelOrEmpty "Error: NO_CHANGE" = true ∧
    (step (⟨true, ProcessingState.ANALYZING, none, none, [], ConvStatus.connected,
        [⟨"imgA", none, none⟩], []⟩ : AppState)
      (Event.complete 0
        (CallOutcome.ok (classifyFailure ⟨none, "NO_CHANGE"⟩)) true)).logs = [] ∧
    (step (⟨true, ProcessingState.ANALYZING, none, none, [], ConvStatus.connected,
        [⟨"imgA", none, none⟩], []⟩ : AppState)
      (Event.complete 0
        (CallOutcome.ok (classifyFailure ⟨none, "NO_CHANGE"⟩)) true)).lastTextDescription
        = none ∧
    (step (⟨true, ProcessingState.ANALYZING, none, none, [], ConvStatus.connected,
        [⟨"imgA", none, none⟩], []⟩ : AppState)
      (Event.complete 0
        (CallOutcome.ok (classifyFailure ⟨none, "NO_CHANGE"⟩)) true)).sentUpdates
        = [] := by
  decide

/-- Claim C10 (amended): every failure inside the try block resolves to
an `"Error: "`-prefixed result string (never a rejection), and whenever
that string does not itself trip the sentinel test — true of the fixed
rate-limit and auth messages, but not of an arbitrary echoed message —
the loop records it as the new previous observation, appends it as the
one new visual entry, and pushes it to the voice session when
connected. -/
theorem C10_error_strings_reach_loop (e : ApiError) (s : AppState) (i : Nat)
    (c : InflightCall) (p : Bool) (hc : s.inflight.get? i = some c)
    (hr : sentinelOrEmpty (classifyFailure e) = false) :
    (∃ rest, classifyFailure e = "Error: " ++ rest) ∧
    (step s (Event.complete i (CallOutcome.ok (classifyFailure e)) p)).lastTextDescription
        = some (classifyFailure e) ∧
    logsOfType (step s (Event.complete i (CallOutcome.ok (classifyFailure e)) p))
        LogType.visual
      = logsOfType s LogType.visual ++ [⟨LogType.visual, classifyFailure e⟩] ∧
    (s.convStatus = ConvStatus.connected →
      (step s (Event.complete i (CallOutcome.ok (classifyFailure e)) p)).sentUpdates
        = s.sentUpdates ++ [classifyFailure e]) := by
  refine ⟨classifyFailure_shape e, ?_, ?_, ?_⟩
  · rw [step_complete_ok_new s i c _ p hc hr]
  · rw [step_complete_ok_new s i c _ p hc hr]
    by_cases hcon : s.convStatus = ConvStatus.connected
    · cases p <;> simp [logsOfType, List.filter_append, hcon]
    · simp [logsOfType, List.filter_append, hcon]
  · intro hcon
    rw [step_complete_ok_new s i c _ p hc hr]
    simp [hcon]

/-- Witness for C10 at a rate-limit failure in a connected state. -/
theorem C10_witness :
    ((⟨true, ProcessingState.ANALYZING, none, none, [], ConvStatus.connected,
        [⟨"imgA", none, none⟩], []⟩ : AppState).inflight.get? 0
        = some ⟨"imgA", none, none⟩ ∧
     sentinelOrEmpty (classifyFailure ⟨some 429, "boom"⟩) = false) ∧
    ((∃ rest, classifyFailure ⟨some 429, "boom"⟩ = "Error: " ++ rest) ∧
     (step (⟨true, ProcessingState.ANALYZING, none, none, [], ConvStatus.connected,
          [⟨"imgA", none, none⟩], []⟩ : AppState)
        (Event.complete 0
          (CallOutcome.ok (classifyFailure ⟨some 429, "boom"⟩)) true)).lastTextDescription
          = some (classifyFailure ⟨some 429, "boom"⟩) ∧
     logsOfType (step (⟨true, ProcessingState.ANALYZING, none, none, [],
          ConvStatus.connected, [⟨"imgA", none, none⟩], []⟩ : AppState)
        (Event.complete 0
          (CallOutcome.ok (classifyFailure ⟨some 429, "boom"⟩)) true)) LogType.visual
        = logsOfType (⟨true, ProcessingState.ANALYZING, none, none, [],
            ConvStatus.connected, [⟨"imgA", none, none⟩], []⟩ : AppState) LogType.visual
          ++ [⟨LogType.visual, classifyFailure ⟨some 429, "boom"⟩⟩] ∧
     ((⟨true, ProcessingState.ANALYZING, none, none, [], ConvStatus.connected,
          [⟨"imgA", none, none⟩], []⟩ : AppState).convStatus = ConvStatus.connected →
       (step (⟨true, ProcessingState.ANALYZING, none, none, [], ConvStatus.connected,
            [⟨"imgA", none, none⟩], []⟩ : AppState)
         (Event.complete 0
           (CallOutcome.ok (classifyFailure ⟨some 429, "boom"⟩)) true)).sentUpdates
         = (⟨true, ProcessingState.ANALYZING, none, none, [], ConvStatus.connected,
              [⟨"imgA", none, none⟩], []⟩ : AppState).sentUpdates
           ++ [classifyFailure ⟨some 429, "boom"⟩])) :=
  ⟨⟨by decide, by decide⟩,
   C10_error_strings_reach_loop ⟨some 429, "boom"⟩
     (⟨true, ProcessingState.ANALYZING, none, none, [], ConvStatus.connected,
        [⟨"imgA", none, none⟩], []⟩ : AppState)
     0 ⟨"imgA", none, none⟩ true (by decide) (by decide)⟩

end VisualCortex
